import Mathlib

/-!
Shallow embedding of `main.py` from the MadPaddleToONNX repository.

The script is a sequential batch job: extract two PaddleOCR tar archives,
invoke the external `paddle2onnx` converter on each, validate the produced
ONNX files, and turn any unhandled error into process exit code 1.

Modelling choices:
* A filesystem path is a list of components (`FPath`).  `str(FPath)` joins the
  components with a slash; `FPath.stem` follows pathlib (the final component
  without its last suffix, kept when the dot is leading or trailing).
* External effects live in an `Env` record: the subprocess runner (`run`,
  returning exit code / stdout / stderr, and `procFs`, the filesystem effect
  of the spawned process), the tar archive contents (`archiveMembers`,
  `none` when opening the archive fails), and the onnx library
  (`loadModel` / `checkModel`, each either succeeding or raising, rendered
  as `Except String`).
* Program state `St` is the filesystem, the accumulated log lines (one
  string per `log(...)` call, newlines included), and a trace of external
  events (processes spawned, archives extracted) used to express claims of
  the form "X was never begun / happened at most once".
* Python exceptions are an `Err` value threaded in the second component of
  each function's `St × Except Err _` result; `sys.exit(1)` becomes the
  numeric result of `main`.  Exception `str()` renderings keep the message
  text the code interpolates into its log lines.
* The file size float `st_size / (1024 ** 2)` and its `:.2f` rendering are
  modelled exactly over the natural number of bytes, rounding the number of
  hundredths to nearest with ties to even, which is the value the float
  pipeline produces up to floating-point rounding.
-/

abbrev FPath := List String

/-- `str(FPath)`: components joined with a slash. -/
def pathStr (p : FPath) : String :=
  String.intercalate "/" p

/-- `FPath.name`: the final component (empty for the empty path). -/
def fileName (p : FPath) : String :=
  p.getLast?.getD ""

/-- Index of the last occurrence of `c` in `cs`, if any. -/
def lastIdxOf (c : Char) (cs : List Char) : Option Nat :=
  ((List.range cs.length).filter (fun i => cs.get? i = some c)).getLast?

/-- `FPath.stem` on a file name, following pathlib: with `i` the last index of
a dot, the prefix before `i` when `0 < i < length - 1`, otherwise the whole
name. -/
def stemOf (name : String) : String :=
  let cs := name.toList
  match lastIdxOf ('.') cs with
  | none => name
  | some i => if 0 < i ∧ i + 1 < cs.length then String.mk (cs.take i) else name

/-- Result of `subprocess.run` with captured output. -/
structure ProcResult where
  returncode : Int
  stdout : String
  stderr : String
deriving DecidableEq

/-- The tensor descriptors logged by the validator: `name` and the rendering
of the declared `type`. -/
structure ValueInfo where
  name : String
  type : String
deriving DecidableEq

/-- The graph of a loaded ONNX model: its declared inputs and outputs. -/
structure OnnxGraph where
  input : List ValueInfo
  output : List ValueInfo
deriving DecidableEq

/-- A loaded ONNX model as the validator consumes it. -/
structure OnnxModel where
  graph : OnnxGraph
deriving DecidableEq

/-- Filesystem: the set of existing paths (files and directories) and the
sizes in bytes of the files that have one, as an association list. -/
structure FS where
  dirs : List FPath
  sizes : List (FPath × Nat)
deriving DecidableEq

/-- External events recorded while the script runs: a subprocess spawned
with a given argument vector, or a tar archive actually extracted. -/
inductive Event where
  | ranProc (cmd : List String)
  | didExtract (tar : FPath) (dest : FPath)
deriving DecidableEq

/-- Program state: filesystem, log lines so far, external events so far. -/
structure St where
  fs : FS
  logs : List String
  events : List Event
deriving DecidableEq

/-- One `log(...)` call. -/
def logMsg (s : St) (m : String) : St :=
  { s with logs := s.logs ++ [m] }

/-- Python exceptions the script can raise: `RuntimeError` from `run_cmd`,
`FileNotFoundError`-style failures from `tarfile.open` and `FPath.stat`. -/
inductive Err where
  | runtimeError (msg : String)
  | tarOpenError (p : FPath)
  | statError (p : FPath)
deriving DecidableEq

/-- `str(exception)` as interpolated into the orchestrator's error log. -/
def Err.message : Err → String
  | .runtimeError m => m
  | .tarOpenError p => "No such file or directory: " ++ pathStr p
  | .statError p => "No such file or directory: " ++ pathStr p

/-- The external world: subprocess runner and its filesystem effect, tar
archive member lists, and the onnx load / check calls. -/
structure Env where
  run : List String → ProcResult
  procFs : List String → FS → FS
  archiveMembers : FPath → Option (List FPath)
  loadModel : FPath → Except String OnnxModel
  checkModel : OnnxModel → Except String Unit
  now : String

-- ===== Constant paths (main.py lines 10-26), relative to BASE_DIR =====

def MODEL_DIR : FPath := ["PP_OCR_models"]

def OUTPUT_DIR : FPath := ["output"]

def OUTPUT_VALIDATE_DIR : FPath := ["validation"]

def LOG_FILE : FPath := OUTPUT_VALIDATE_DIR ++ ["onnx_validation.log"]

def DET_TAR : FPath := MODEL_DIR ++ ["ch_PP-OCRv4_det_infer.tar"]

def REC_TAR : FPath := MODEL_DIR ++ ["ch_PP-OCRv4_rec_infer.tar"]

def DET_ONNX : FPath := OUTPUT_DIR ++ ["det.onnx"]

def REC_ONNX : FPath := OUTPUT_DIR ++ ["rec.onnx"]

def OPSET : Nat := 11

/-- `run_cmd` (main.py lines 43-47): run the process (its filesystem effect
and the spawn event happen regardless of the exit code), then raise
`RuntimeError(error_msg + "\n" + stderr)` on a non-zero exit code, else
return the stripped stdout. -/
def runCmd (env : Env) (s : St) (cmd : List String) (error_msg : String) :
    St × Except Err String :=
  let result := env.run cmd
  let s2 : St := { s with
    fs := env.procFs cmd s.fs
    events := s.events ++ [Event.ranProc cmd] }
  if result.returncode ≠ 0 then
    (s2, Except.error (Err.runtimeError (error_msg ++ "\n" ++ result.stderr)))
  else
    (s2, Except.ok result.stdout.trim)

/-- All nonempty prefixes of a member path: extracting a tar member creates
every directory on its path. -/
def ancestorsOf (m : FPath) : List FPath :=
  (List.range m.length).map (fun i => m.take (i + 1))

/-- Nonempty prefixes of every member of a list of member paths. -/
def allAncestors : List FPath → List FPath
  | [] => []
  | m :: rest => ancestorsOf m ++ allAncestors rest

/-- `tar.extractall(path=dest)`: every member path, and every directory on
the way to it, now exists under `dest`. -/
def addMembers (dest : FPath) (members : List FPath) (fs : FS) : FS :=
  { fs with dirs := fs.dirs ++ (allAncestors members).map (fun q => dest ++ q) }

/-- `extract_tar` (main.py lines 51-64): short-circuit when
`dest / tar_path.stem` already exists, otherwise open the archive (raising
when that fails) and extract all members into `dest`. -/
def extract_tar (env : Env) (s : St) (tar_path : FPath) (dest : FPath) :
    St × Except Err FPath :=
  let model_name := stemOf (fileName tar_path)
  let extract_path := dest ++ [model_name]
  if extract_path ∈ s.fs.dirs then
    (logMsg s ("Already extracted: " ++ model_name), Except.ok extract_path)
  else
    let s1 := logMsg s ("Extracting " ++ fileName tar_path ++ "...")
    match env.archiveMembers tar_path with
    | none => (s1, Except.error (Err.tarOpenError tar_path))
    | some members =>
      let s2 : St := { s1 with
        fs := addMembers dest members s1.fs
        events := s1.events ++ [Event.didExtract tar_path dest] }
      (logMsg s2 ("Extracted to " ++ pathStr extract_path), Except.ok extract_path)

/-- The argument vector `paddle_to_onnx` builds (main.py lines 69-77). -/
def convCmd (paddle_dir : FPath) (onnx_out : FPath) : List String :=
  ["paddle2onnx",
   "--model_dir", pathStr paddle_dir,
   "--model_filename", "inference.pdmodel",
   "--params_filename", "inference.pdiparams",
   "--save_file", pathStr onnx_out,
   "--opset_version", toString OPSET,
   "--enable_onnx_checker", "True"]

/-- Round `num / den` to the nearest integer, ties to even (the rounding the
float pipeline applies when formatting). -/
def roundHalfEven (num den : Nat) : Nat :=
  let q := num / den
  let r := num % den
  if 2 * r < den then q
  else if den < 2 * r then q + 1
  else if q % 2 = 0 then q else q + 1

/-- The number of hundredths of a megabyte in `bytes` bytes, rounded to
nearest with ties to even: the value `f"{size:.2f}"` prints. -/
def sizeHundredths (bytes : Nat) : Nat :=
  roundHalfEven (bytes * 100) 1048576

/-- Two-decimal rendering of `bytes / (1024 ** 2)` megabytes, as in
`f"{size:.2f}"`. -/
def fmtSizeMB (bytes : Nat) : String :=
  let h := sizeHundredths bytes
  let frac := h % 100
  let fracStr := if frac < 10 then "0" ++ toString frac else toString frac
  toString (h / 100) ++ "." ++ fracStr

/-- `paddle_to_onnx` (main.py lines 67-81): log, invoke the converter via
`run_cmd`, then `onnx_out.stat().st_size` (raising when the output file does
not exist) and log the size in megabytes. -/
def paddle_to_onnx (env : Env) (s : St) (paddle_dir : FPath) (onnx_out : FPath) :
    St × Except Err Unit :=
  let s1 := logMsg s ("Converting " ++ fileName onnx_out ++ " to ONNX...")
  let cmd := convCmd paddle_dir onnx_out
  match runCmd env s1 cmd "Paddle to ONNX conversion failed" with
  | (s2, Except.error e) => (s2, Except.error e)
  | (s2, Except.ok _) =>
    match s2.fs.sizes.lookup onnx_out with
    | none => (s2, Except.error (Err.statError onnx_out))
    | some bytes =>
      (logMsg s2 ("ONNX model saved: " ++ pathStr onnx_out
        ++ " (" ++ fmtSizeMB bytes ++ " MB)"), Except.ok ())

/-- `validate_onnx` (main.py lines 85-103): load and schema-check the model
inside a `try` whose `except Exception` logs and swallows every failure; on
success log the confirmation and each declared input and output. Total: no
error ever propagates to the caller. -/
def validate_onnx (env : Env) (s : St) (onnx_file : FPath) : St :=
  let nm := fileName onnx_file
  let s1 := logMsg s ("Validating " ++ nm ++ "...")
  match env.loadModel onnx_file with
  | Except.error e => logMsg s1 ("[ERROR] " ++ nm ++ " failed validation: " ++ e)
  | Except.ok model =>
    match env.checkModel model with
    | Except.error e => logMsg s1 ("[ERROR] " ++ nm ++ " failed validation: " ++ e)
    | Except.ok _ =>
      let s2 := logMsg s1 ("[OK] " ++ nm ++ " is valid")
      let s3 := logMsg s2 "Inputs:"
      let s4 : St := { s3 with
        logs := s3.logs ++ model.graph.input.map
          (fun i => "  " ++ i.name ++ ": " ++ i.type) }
      let s5 := logMsg s4 "Outputs:"
      { s5 with
        logs := s5.logs ++ model.graph.output.map
          (fun o => "  " ++ o.name ++ ": " ++ o.type) }

/-- The `'='*60` banner line logged by `convert_models`. -/
def bannerLine (name : String) : String :=
  "\n" ++ ("".pushn ('=') 60) ++ "\nConverting " ++ name ++ " Model\n"
    ++ ("".pushn ('=') 60)

/-- `convert_models` (main.py lines 107-111): banner, extract, convert,
validate; extraction and conversion errors propagate, validation never
raises. -/
def convert_models (env : Env) (s : St) (tar_path : FPath) (output_onnx : FPath)
    (name : String) : St × Except Err Unit :=
  let s1 := logMsg s (bannerLine name)
  match extract_tar env s1 tar_path MODEL_DIR with
  | (s2, Except.error e) => (s2, Except.error e)
  | (s2, Except.ok paddle_dir) =>
    match paddle_to_onnx env s2 paddle_dir output_onnx with
    | (s3, Except.error e) => (s3, Except.error e)
    | (s3, Except.ok _) => (validate_onnx env s3 output_onnx, Except.ok ())

/-- The startup line of `main`, with `datetime.datetime.now()` supplied by
the environment. -/
def headerLine (now : String) : String :=
  "PaddleOCR Model Converter (ONNX only) - " ++ now ++ "\n"

/-- The line `main` logs before `sys.exit(1)`. -/
def convFailedLine (e : Err) : String :=
  "[ERROR] Conversion failed: " ++ e.message

/-- `main` (main.py lines 117-128): convert Detection then Recognition
inside one `try`; any exception logs `[ERROR] Conversion failed: ...` and
exits with code 1, otherwise the closing lines are logged and the process
exits 0. The numeric component is the process exit code. -/
def mainFn (env : Env) (s : St) : St × Nat :=
  let s0 := logMsg s (headerLine env.now)
  match convert_models env s0 DET_TAR DET_ONNX "Detection" with
  | (s1, Except.error e) => (logMsg s1 (convFailedLine e), 1)
  | (s1, Except.ok _) =>
    match convert_models env s1 REC_TAR REC_ONNX "Recognition" with
    | (s2, Except.error e) => (logMsg s2 (convFailedLine e), 1)
    | (s2, Except.ok _) =>
      let s3 := logMsg s2 "\nConversion complete!"
      let s4 := logMsg s3 ("Output directory: " ++ pathStr OUTPUT_DIR)
      (logMsg s4 ("Validation log saved to: " ++ pathStr LOG_FILE), 0)

/-- Number of archive extractions recorded in an event trace. -/
def countExtracts (events : List Event) : Nat :=
  events.countP (fun e => match e with
    | Event.didExtract _ _ => true
    | _ => false)

-- ===== Concrete environments and states used by the witnesses =====

/-- The empty filesystem. -/
def fs0 : FS := { dirs := [], sizes := [] }

/-- The initial program state: empty filesystem, no logs, no events. -/
def st0 : St := { fs := fs0, logs := [], events := [] }

/-- A sample loaded model with one declared input and one declared output. -/
def modelXY : OnnxModel :=
  { graph := { input := [{ name := "x", type := "tensor: float32" }],
               output := [{ name := "y", type := "tensor: float32" }] } }

/-- A world where every spawned process exits with code 1 and stderr
"missing op", the archives hold the conventional PP-OCR layout, and loading
a model fails. -/
def envFail : Env where
  run := fun _ => { returncode := 1, stdout := "", stderr := "missing op" }
  procFs := fun _ fs => fs
  archiveMembers := fun _ => some [["ch_PP-OCRv4_det_infer", "inference.pdmodel"],
    ["ch_PP-OCRv4_det_infer", "inference.pdiparams"]]
  loadModel := fun _ => Except.error "No such file"
  checkModel := fun _ => Except.ok ()
  now := "2026-10-12 00:00:00"

/-- A world where every spawned process succeeds and the converter writes a
2621440-byte `output/det.onnx`, and models load and check fine. -/
def envOk : Env where
  run := fun _ => { returncode := 0, stdout := "", stderr := "" }
  procFs := fun _ fs => { fs with sizes := fs.sizes ++ [(DET_ONNX, 2621440)] }
  archiveMembers := fun _ => some [["ch_PP-OCRv4_det_infer", "inference.pdmodel"]]
  loadModel := fun _ => Except.ok modelXY
  checkModel := fun _ => Except.ok ()
  now := "2026-10-12 00:00:00"

/-- A world where the converter reports success (exit code 0) but writes no
output file at all. -/
def envMissing : Env where
  run := fun _ => { returncode := 0, stdout := "", stderr := "" }
  procFs := fun _ fs => fs
  archiveMembers := fun _ => some [["ch_PP-OCRv4_det_infer", "inference.pdmodel"]]
  loadModel := fun _ => Except.ok modelXY
  checkModel := fun _ => Except.ok ()
  now := "2026-10-12 00:00:00"

/-- A world whose archive `archive.tar` holds a single member named
`payload`, so extraction never creates the directory `archive` that the
short-circuit test looks for. -/
def envTwice : Env where
  run := fun _ => { returncode := 0, stdout := "", stderr := "" }
  procFs := fun _ fs => fs
  archiveMembers := fun _ => some [["payload"]]
  loadModel := fun _ => Except.ok modelXY
  checkModel := fun _ => Except.ok ()
  now := "2026-10-12 00:00:00"

/-- The extracted Detection model directory under the models directory. -/
def detPd : FPath := MODEL_DIR ++ ["ch_PP-OCRv4_det_infer"]

/-- The state of the failing run just before the Detection extraction:
header and Detection banner logged. -/
def detStartFail : St :=
  logMsg (logMsg st0 (headerLine envFail.now)) (bannerLine "Detection")

/-- The failing run's state after the Detection extraction. -/
def detS1Fail : St :=
  (extract_tar envFail detStartFail DET_TAR MODEL_DIR).1

/-- The missing-output run's state just before the Detection extraction. -/
def detStartMiss : St :=
  logMsg (logMsg st0 (headerLine envMissing.now)) (bannerLine "Detection")

/-- The missing-output run's state after the Detection extraction. -/
def detS1Miss : St :=
  (extract_tar envMissing detStartMiss DET_TAR MODEL_DIR).1

/-- A first extraction of the Detection archive from the initial state. -/
def exFirst : St × Except Err FPath :=
  extract_tar envFail st0 DET_TAR MODEL_DIR

/-- The archive used by the idempotence counterexample. -/
def tarX : FPath := ["archive.tar"]

/-- Two successive extractions of `archive.tar` into the base directory in
the `envTwice` world. -/
def twiceResult : St × Except Err FPath :=
  extract_tar envTwice (extract_tar envTwice st0 tarX []).1 tarX []

-- ===== Helper lemmas =====

/-- The spawn event is recorded whatever the exit code. -/
theorem runCmd_events (env : Env) (s : St) (cmd : List String) (m : String) :
    (runCmd env s cmd m).1.events = s.events ++ [Event.ranProc cmd] := by
  simp only [runCmd]
  split <;> rfl

/-- Rounding `num / 2^20` to hundredths, ties to even, lands within half a
hundredth of the exact value (both bounds scaled by `100 * 2^20`). -/
theorem roundHalfEven_close (num : Nat) :
    roundHalfEven num 1048576 * 1048576 ≤ num + 524288 ∧
    num ≤ roundHalfEven num 1048576 * 1048576 + 524288 := by
  simp only [roundHalfEven]
  split_ifs <;> omega

-- ===== Claim theorems =====

/-- C4: for every converter invocation whose external process exits with a
non-zero status, `run_cmd` raises a `RuntimeError` whose message is exactly
the supplied error message followed by a newline and the captured standard
error, so the stderr text is contained verbatim. -/
theorem runCmd_failure (env : Env) (s : St) (cmd : List String)
    (error_msg : String) (h : (env.run cmd).returncode ≠ 0) :
    (runCmd env s cmd error_msg).2 =
      Except.error (Err.runtimeError
        (error_msg ++ "\n" ++ (env.run cmd).stderr)) := by
  unfold runCmd
  simp [h]

/-- C4 witness: a concrete failing process, exit code 1 and stderr
"missing op". -/
theorem runCmd_failure_witness :
    (runCmd envFail st0 ["paddle2onnx"] "Paddle to ONNX conversion failed").2 =
      Except.error (Err.runtimeError
        ("Paddle to ONNX conversion failed" ++ "\n"
          ++ (envFail.run ["paddle2onnx"]).stderr)) :=
  runCmd_failure envFail st0 ["paddle2onnx"]
    "Paddle to ONNX conversion failed" (by decide)

/-- C9: whenever `extract_tar` returns a path, that path is exactly the
destination joined with the archive filename's stem, computed purely from
the two arguments, independent of the filesystem and of what the archive
contained. -/
theorem extract_tar_result (env : Env) (s : St) (tar_path dest : FPath)
    (s1 : St) (p : FPath)
    (h : extract_tar env s tar_path dest = (s1, Except.ok p)) :
    p = dest ++ [stemOf (fileName tar_path)] := by
  simp only [extract_tar] at h
  split at h
  · simp_all
  · split at h
    · simp_all
    · simp_all

/-- C9 witness: the Detection archive extracts to the models directory
joined with the stem of its filename. -/
theorem extract_tar_result_witness :
    detPd = MODEL_DIR ++ [stemOf (fileName DET_TAR)] :=
  extract_tar_result envFail st0 DET_TAR MODEL_DIR exFirst.1 detPd (by rfl)

/-- C8: every converter invocation spawns exactly one process, with the
fixed, hardcoded argument vector: input model directory, the two
conventionally-named input filenames, the output file path, the fixed
operator-set version 11, and the checker-enable flag. -/
theorem paddle_to_onnx_fixed_args (env : Env) (s : St)
    (paddle_dir onnx_out : FPath) :
    (paddle_to_onnx env s paddle_dir onnx_out).1.events =
      s.events ++ [Event.ranProc
        ["paddle2onnx",
         "--model_dir", pathStr paddle_dir,
         "--model_filename", "inference.pdmodel",
         "--params_filename", "inference.pdiparams",
         "--save_file", pathStr onnx_out,
         "--opset_version", "11",
         "--enable_onnx_checker", "True"]] := by
  have h11 : toString OPSET = "11" := by decide
  have hcmd : convCmd paddle_dir onnx_out =
      ["paddle2onnx",
       "--model_dir", pathStr paddle_dir,
       "--model_filename", "inference.pdmodel",
       "--params_filename", "inference.pdiparams",
       "--save_file", pathStr onnx_out,
       "--opset_version", "11",
       "--enable_onnx_checker", "True"] := by
    simp [convCmd, h11]
  rcases hrc : runCmd env (logMsg s ("Converting " ++ fileName onnx_out
      ++ " to ONNX...")) (convCmd paddle_dir onnx_out)
      "Paddle to ONNX conversion failed" with ⟨s2, r⟩
  have hev : s2.events = s.events ++ [Event.ranProc (convCmd paddle_dir onnx_out)] := by
    have := runCmd_events env (logMsg s ("Converting " ++ fileName onnx_out
      ++ " to ONNX...")) (convCmd paddle_dir onnx_out)
      "Paddle to ONNX conversion failed"
    rw [hrc] at this
    simpa [logMsg] using this
  simp only [paddle_to_onnx]
  rw [hrc]
  cases r with
  | error e => simpa [hcmd] using hev
  | ok v =>
    cases hl : s2.fs.sizes.lookup onnx_out with
    | none => simpa [hl, hcmd] using hev
    | some bytes => simpa [hl, logMsg, hcmd] using hev

/-- C5: when the converter process exits with status 0 and the output file
exists with `n` bytes, `paddle_to_onnx` succeeds and logs the size as the
two-decimal rendering of `n / (1024*1024)` megabytes followed by " MB"; the
rendered hundredths value sits within half a hundredth of the exact
quotient (last two conjuncts, scaled by `100 * 2^20`). -/
theorem paddle_to_onnx_size_log (env : Env) (s : St)
    (paddle_dir onnx_out : FPath) (n : Nat)
    (h0 : (env.run (convCmd paddle_dir onnx_out)).returncode = 0)
    (hsz : (env.procFs (convCmd paddle_dir onnx_out) s.fs).sizes.lookup onnx_out
      = some n) :
    (paddle_to_onnx env s paddle_dir onnx_out).2 = Except.ok () ∧
    (paddle_to_onnx env s paddle_dir onnx_out).1.logs =
      s.logs ++ ["Converting " ++ fileName onnx_out ++ " to ONNX...",
        "ONNX model saved: " ++ pathStr onnx_out
          ++ " (" ++ fmtSizeMB n ++ " MB)"] ∧
    sizeHundredths n * 1048576 ≤ n * 100 + 524288 ∧
    n * 100 ≤ sizeHundredths n * 1048576 + 524288 := by
  have hb := roundHalfEven_close (n * 100)
  simp [paddle_to_onnx, runCmd, logMsg, h0, hsz, sizeHundredths, hb.1, hb.2]

/-- C5 witness: a successful conversion producing a 2621440-byte
`output/det.onnx` (printed as "2.50"). -/
theorem paddle_to_onnx_size_log_witness :
    (paddle_to_onnx envOk st0 detPd DET_ONNX).2 = Except.ok () ∧
    (paddle_to_onnx envOk st0 detPd DET_ONNX).1.logs =
      st0.logs ++ ["Converting " ++ fileName DET_ONNX ++ " to ONNX...",
        "ONNX model saved: " ++ pathStr DET_ONNX
          ++ " (" ++ fmtSizeMB 2621440 ++ " MB)"] ∧
    sizeHundredths 2621440 * 1048576 ≤ 2621440 * 100 + 524288 ∧
    2621440 * 100 ≤ sizeHundredths 2621440 * 1048576 + 524288 :=
  paddle_to_onnx_size_log envOk st0 detPd DET_ONNX 2621440 (by decide) (by decide)

/-- C7: for a model file that loads and passes the schema check, the
validator logs the "[OK]" confirmation, then "Inputs:" followed by exactly
one entry (name and type) per declared graph input, then "Outputs:"
followed by exactly one entry per declared graph output, in that order, and
changes nothing else in the state. -/
theorem validate_onnx_success (env : Env) (s : St) (onnx_file : FPath)
    (m : OnnxModel)
    (hload : env.loadModel onnx_file = Except.ok m)
    (hcheck : env.checkModel m = Except.ok ()) :
    validate_onnx env s onnx_file =
      { s with logs := s.logs
          ++ ["Validating " ++ fileName onnx_file ++ "...",
              "[OK] " ++ fileName onnx_file ++ " is valid",
              "Inputs:"]
          ++ m.graph.input.map (fun i => "  " ++ i.name ++ ": " ++ i.type)
          ++ ["Outputs:"]
          ++ m.graph.output.map (fun o => "  " ++ o.name ++ ": " ++ o.type) } := by
  simp [validate_onnx, logMsg, hload, hcheck]

/-- C7 witness: a valid model with one input "x" and one output "y". -/
theorem validate_onnx_success_witness :
    validate_onnx envOk st0 DET_ONNX =
      { st0 with logs := st0.logs
          ++ ["Validating " ++ fileName DET_ONNX ++ "...",
              "[OK] " ++ fileName DET_ONNX ++ " is valid",
              "Inputs:"]
          ++ modelXY.graph.input.map (fun i => "  " ++ i.name ++ ": " ++ i.type)
          ++ ["Outputs:"]
          ++ modelXY.graph.output.map (fun o => "  " ++ o.name ++ ": " ++ o.type) } :=
  validate_onnx_success envOk st0 DET_ONNX modelXY (by rfl) (by rfl)

/-- C2: on any validation failure — the load raising, or the schema check
raising on the loaded model — `validate_onnx` returns normally with only an
"[ERROR]" log line naming the file appended, and the orchestrator's
`convert_models` still returns success whenever extraction and conversion
succeeded, so a failed validation never terminates the run. -/
theorem validate_onnx_swallows (env : Env) (s : St) (onnx_file : FPath)
    (e : String)
    (hfail : env.loadModel onnx_file = Except.error e ∨
      ∃ m, env.loadModel onnx_file = Except.ok m ∧
        env.checkModel m = Except.error e) :
    validate_onnx env s onnx_file =
      { s with logs := s.logs
          ++ ["Validating " ++ fileName onnx_file ++ "...",
              "[ERROR] " ++ fileName onnx_file ++ " failed validation: " ++ e] } ∧
    (∀ s0 tar_path output_onnx name s1 paddle_dir,
      extract_tar env (logMsg s0 (bannerLine name)) tar_path MODEL_DIR
        = (s1, Except.ok paddle_dir) →
      (paddle_to_onnx env s1 paddle_dir output_onnx).2 = Except.ok () →
      (convert_models env s0 tar_path output_onnx name).2 = Except.ok ()) := by
  constructor
  · rcases hfail with h | ⟨m, hm, hc⟩
    · simp [validate_onnx, logMsg, h]
    · simp [validate_onnx, logMsg, hm, hc]
  · intro s0 tar_path output_onnx name s1 paddle_dir hext hconv
    rcases hpc : paddle_to_onnx env s1 paddle_dir output_onnx with ⟨s3, r⟩
    rw [hpc] at hconv
    simp only at hconv
    subst hconv
    simp [convert_models, hext, hpc]

/-- C2 witness: a world whose model load fails with "No such file"; the
validator swallows it and only logs. -/
theorem validate_onnx_swallows_witness :
    validate_onnx envFail st0 DET_ONNX =
      { st0 with logs := st0.logs
          ++ ["Validating " ++ fileName DET_ONNX ++ "...",
              "[ERROR] " ++ fileName DET_ONNX
                ++ " failed validation: " ++ "No such file"] } :=
  (validate_onnx_swallows envFail st0 DET_ONNX "No such file" (Or.inl rfl)).1

/-- C6: the process exit code is 0 exactly when both model-kind conversions
return without an unhandled error, and 1 exactly otherwise (any error
during extraction or conversion of either model kind). -/
theorem mainFn_exit_code (env : Env) (s : St) :
    ((mainFn env s).2 = 0 ↔
      ((convert_models env (logMsg s (headerLine env.now))
          DET_TAR DET_ONNX "Detection").2 = Except.ok () ∧
       (convert_models env (convert_models env (logMsg s (headerLine env.now))
           DET_TAR DET_ONNX "Detection").1
         REC_TAR REC_ONNX "Recognition").2 = Except.ok ())) ∧
    ((mainFn env s).2 = 1 ↔
      ¬ ((convert_models env (logMsg s (headerLine env.now))
            DET_TAR DET_ONNX "Detection").2 = Except.ok () ∧
         (convert_models env (convert_models env (logMsg s (headerLine env.now))
             DET_TAR DET_ONNX "Detection").1
           REC_TAR REC_ONNX "Recognition").2 = Except.ok ())) := by
  rcases hd : convert_models env (logMsg s (headerLine env.now))
      DET_TAR DET_ONNX "Detection" with ⟨s1, r1⟩
  cases r1 with
  | error e => simp [mainFn, hd]
  | ok v =>
    rcases hr : convert_models env s1 REC_TAR REC_ONNX "Recognition" with ⟨s2, r2⟩
    cases r2 with
    | error e => simp [mainFn, hd, hr]
    | ok v2 => simp [mainFn, hd, hr]

/-- C1: when the Detection extraction has succeeded and the Detection
converter process exits with a non-zero status, the run exits with code 1,
the log gains the "Converting det.onnx" line and an "[ERROR] Conversion
failed" line carrying the converter's captured stderr, and no further
external event happens after the failed converter call — in particular the
Recognition extraction and conversion are never begun. -/
theorem mainFn_detection_failure (env : Env) (s : St) (s1 : St) (pd : FPath)
    (h1 : extract_tar env
        (logMsg (logMsg s (headerLine env.now)) (bannerLine "Detection"))
        DET_TAR MODEL_DIR = (s1, Except.ok pd))
    (h2 : (env.run (convCmd pd DET_ONNX)).returncode ≠ 0) :
    (mainFn env s).2 = 1 ∧
    (mainFn env s).1.logs = s1.logs ++
      ["Converting " ++ fileName DET_ONNX ++ " to ONNX...",
       "[ERROR] Conversion failed: " ++ ("Paddle to ONNX conversion failed"
         ++ "\n" ++ (env.run (convCmd pd DET_ONNX)).stderr)] ∧
    (mainFn env s).1.events =
      s1.events ++ [Event.ranProc (convCmd pd DET_ONNX)] := by
  have h1' := h1
  simp only [logMsg, List.append_assoc, List.singleton_append,
    List.cons_append, List.nil_append] at h1'
  simp [mainFn, convert_models, paddle_to_onnx, runCmd, logMsg, h1', h2,
    convFailedLine, Err.message]

/-- C1 witness: a converter that exits with code 1 and stderr "missing op"
in an otherwise well-formed world. -/
theorem mainFn_detection_failure_witness :
    (mainFn envFail st0).2 = 1 ∧
    (mainFn envFail st0).1.logs = detS1Fail.logs ++
      ["Converting " ++ fileName DET_ONNX ++ " to ONNX...",
       "[ERROR] Conversion failed: " ++ ("Paddle to ONNX conversion failed"
         ++ "\n" ++ (envFail.run (convCmd detPd DET_ONNX)).stderr)] ∧
    (mainFn envFail st0).1.events =
      detS1Fail.events ++ [Event.ranProc (convCmd detPd DET_ONNX)] :=
  mainFn_detection_failure envFail st0 detS1Fail detPd (by rfl) (by decide)

/-- C10: when the converter reports success (exit code 0) but the expected
output file does not exist, `paddle_to_onnx` raises on the `stat` call, and
the orchestrator treats this as fatal: the run exits with code 1. -/
theorem paddle_to_onnx_missing_output (env : Env) (s : St) (s1 : St)
    (pd : FPath)
    (h1 : extract_tar env
        (logMsg (logMsg s (headerLine env.now)) (bannerLine "Detection"))
        DET_TAR MODEL_DIR = (s1, Except.ok pd))
    (h0 : (env.run (convCmd pd DET_ONNX)).returncode = 0)
    (hsz : (env.procFs (convCmd pd DET_ONNX) s1.fs).sizes.lookup DET_ONNX
      = none) :
    (paddle_to_onnx env s1 pd DET_ONNX).2 =
      Except.error (Err.statError DET_ONNX) ∧
    (mainFn env s).2 = 1 := by
  have hp2 : (paddle_to_onnx env s1 pd DET_ONNX).2 =
      Except.error (Err.statError DET_ONNX) := by
    simp [paddle_to_onnx, runCmd, logMsg, h0, hsz]
  refine ⟨hp2, ?_⟩
  rcases hp : paddle_to_onnx env s1 pd DET_ONNX with ⟨s3, r⟩
  rw [hp] at hp2
  simp only at hp2
  subst hp2
  simp [mainFn, convert_models, h1, hp]

/-- C10 witness: a converter that exits 0 without writing the output file.
-/
theorem paddle_to_onnx_missing_output_witness :
    (paddle_to_onnx envMissing detS1Miss detPd DET_ONNX).2 =
      Except.error (Err.statError DET_ONNX) ∧
    (mainFn envMissing st0).2 = 1 :=
  paddle_to_onnx_missing_output envMissing st0 detS1Miss detPd
    (by rfl) (by decide) (by decide)

/-- A path whose head component is `a` has `[a]` among its nonempty
prefixes. -/
theorem head_mem_ancestorsOf (m : FPath) (a : String)
    (hh : m.head? = some a) : [a] ∈ ancestorsOf m := by
  cases m with
  | nil => simp at hh
  | cons b t =>
    simp only [List.head?] at hh
    injection hh with hba
    subst hba
    refine List.mem_map.mpr ⟨0, ?_, ?_⟩
    · simp [List.mem_range]
    · simp

/-- A member of the list with head component `a` contributes `[a]` to the
combined ancestor list. -/
theorem mem_allAncestors (ms : List FPath) (m : FPath) (a : String)
    (hm : m ∈ ms) (hh : m.head? = some a) : [a] ∈ allAncestors ms := by
  induction ms with
  | nil => cases hm
  | cons b rest ih =>
    simp only [allAncestors, List.mem_append]
    cases hm with
    | head => exact Or.inl (head_mem_ancestorsOf _ _ hh)
    | tail _ h => exact Or.inr (ih h)

/-- C3 counterexample: in the `envTwice` world the archive `archive.tar`
holds only a member named `payload`, so extraction never creates the
directory `archive` that the short-circuit looks for, and invoking
`extract_tar` twice on the same archive/destination pair performs the
filesystem extraction work twice — refuting "extracts at most once" as a
universal statement. -/
theorem extract_tar_not_idempotent :
    ¬ countExtracts twiceResult.1.events ≤ 1 := by decide

/-- C3 amended: if the extracted directory already exists, `extract_tar`
performs no work and returns that path; and provided the archive holds a
member whose top-level component equals the archive's stem (so extraction
creates the expected directory — true of the PP-OCR archives), a second
invocation on the same archive/destination pair returns the same path as
the first while performing no extraction work: its only effect is the
"Already extracted" log line. -/
theorem extract_tar_idempotent (env : Env) (s : St) (tar_path dest : FPath)
    (hmem : ∀ ms, env.archiveMembers tar_path = some ms →
      ∃ m ∈ ms, m.head? = some (stemOf (fileName tar_path))) :
    (dest ++ [stemOf (fileName tar_path)] ∈ s.fs.dirs →
      extract_tar env s tar_path dest =
        (logMsg s ("Already extracted: " ++ stemOf (fileName tar_path)),
         Except.ok (dest ++ [stemOf (fileName tar_path)]))) ∧
    (∀ s1 p1, extract_tar env s tar_path dest = (s1, Except.ok p1) →
      extract_tar env s1 tar_path dest =
        (logMsg s1 ("Already extracted: " ++ stemOf (fileName tar_path)),
         Except.ok p1)) := by
  constructor
  · intro hin
    simp [extract_tar, hin]
  · intro s1 p1 h
    simp only [extract_tar] at h ⊢
    by_cases hin : dest ++ [stemOf (fileName tar_path)] ∈ s.fs.dirs
    · rw [if_pos hin] at h
      simp only [Prod.mk.injEq, Except.ok.injEq] at h
      obtain ⟨hs1, hp1⟩ := h
      subst hs1
      subst hp1
      rw [if_pos (by simpa [logMsg] using hin)]
    · rw [if_neg hin] at h
      cases hms : env.archiveMembers tar_path with
      | none => rw [hms] at h; simp at h
      | some ms =>
        rw [hms] at h
        simp only [Prod.mk.injEq, Except.ok.injEq] at h
        obtain ⟨hs1, hp1⟩ := h
        subst hs1
        subst hp1
        obtain ⟨m, hm, hh⟩ := hmem ms hms
        have hmem2 : dest ++ [stemOf (fileName tar_path)] ∈
            (addMembers dest ms (logMsg s ("Extracting " ++ fileName tar_path
              ++ "...")).fs).dirs := by
          simp only [addMembers, logMsg, List.mem_append]
          exact Or.inr (List.mem_map.mpr ⟨[stemOf (fileName tar_path)],
            mem_allAncestors ms m (stemOf (fileName tar_path)) hm hh, rfl⟩)
        simp only [logMsg, addMembers] at hmem2 ⊢
        rw [if_pos hmem2]

/-- C3 witness for the amended claim: re-extracting the Detection archive
after a successful first extraction only logs "Already extracted" and
returns the same path. -/
theorem extract_tar_idempotent_witness :
    extract_tar envFail exFirst.1 DET_TAR MODEL_DIR =
      (logMsg exFirst.1 ("Already extracted: " ++ stemOf (fileName DET_TAR)),
       Except.ok detPd) :=
  (extract_tar_idempotent envFail st0 DET_TAR MODEL_DIR
    (by
      intro ms hms
      injection hms with h
      subst h
      decide)).2 exFirst.1 detPd (by rfl)
